import Mathlib

/-!
Verification of the landslide risk inference engine of this repository
(`src/server/index.js`).  The file embeds the primary engine
(`classifySoilTexture`, `calculateLandslideRisk`) and, for the
root-cohesion depth-gate comparison, the second server variant found in
the same file (`getStrengthFromDepth`, `computeSoilStrength`, and the
depth-gated root bonus inside `calculateRisk`).

Modelling conventions:
* JavaScript numbers are modelled as real numbers.  Every value of `ℝ`
  is finite, so the `Number.isFinite` fallbacks in the source can never
  fire on real inputs and are modelled as the identity; this is noted at
  each spot where the source has such a guard.
* The `throw` in `classifySoilTexture` and its propagation through
  `calculateLandslideRisk` are modelled with `Except String`.
* `parseFloat(x.toFixed(k))` is modelled by `roundTo k`, rounding to `k`
  decimal digits (round half up, matching `round` on `ℝ`).
* The `reason` string of a verdict is a presentation-only concatenation
  of factor sentences; no claim depends on its content, so it is not a
  field of the embedded verdict record.
-/

open Real

/-- Climate record produced by `getKoppenClimate` (src/server/index.js,
lines 157-177): zone label, vegetation density band and permafrost flag. -/
structure Climate where
  zone : String
  vegetation : String
  permafrost : Bool

/-- The `details` object of a risk verdict (src/server/index.js,
lines 267-279 and 474-486). -/
structure Details where
  FoS : ℝ
  probability : ℝ
  cohesion : ℝ
  friction_angle : ℝ
  shear_strength : ℝ
  shear_stress : ℝ
  pore_pressure : ℝ
  saturation : ℝ
  infiltration_rate : ℝ
  root_cohesion : ℝ
  depth : ℝ

/-- Risk verdict returned by `calculateLandslideRisk`.  The `reason`
string is presentation-only and not modelled. -/
structure Verdict where
  level : String
  environment : String
  soil_type : String
  details : Details

/-- Feature bundle consumed by `calculateLandslideRisk`
(destructured at src/server/index.js, lines 241-247).  The
`Number.isFinite` sanitisation of lines 249-254 is the identity on real
inputs, so each field below is the sanitised value. -/
structure Features where
  rain_current : ℝ
  rain_7day : ℝ
  slope : ℝ
  clay : ℝ
  sand : ℝ
  silt : ℝ
  bulk_density : ℝ
  elevation : ℝ
  temp : ℝ
  code : ℤ
  isWater : Bool
  humidity : ℝ
  wind_speed : ℝ
  organic_carbon : ℝ
  ph : ℝ
  aspect : ℝ
  depth : ℝ

/-- Model of `parseFloat(x.toFixed(k))`: round to `k` decimal digits. -/
noncomputable def roundTo (k : ℕ) (x : ℝ) : ℝ := (round (x * 10 ^ k) : ℤ) / 10 ^ k

/-- USDA soil texture classifier (src/server/index.js, lines 181-236),
generic over a linear ordered field so it can be evaluated exactly on
`ℚ` and used at `ℝ` inside the risk pipeline.  The `throw new Error` on
negative inputs is modelled with `Except.error`. -/
def classifySoilTexture {α : Type} [LinearOrderedField α] (clay sand silt : α) :
    Except String String :=
  if clay < 0 ∨ sand < 0 ∨ silt < 0 then .error "Inputs cannot be negative"
  else if clay + sand + silt = 0 then .ok "Unknown"
  else
    let sum := clay + sand + silt
    let nClay := clay / sum * 100
    let nSand := sand / sum * 100
    let nSilt := silt / sum * 100
    if 40 ≤ nClay then
      if 40 ≤ nSilt then .ok "Silty Clay"
      else if nSand ≤ 45 then .ok "Clay"
      else .ok "Silty Clay"
    else if 35 ≤ nClay ∧ 45 ≤ nSand then .ok "Sandy Clay"
    else if 27 ≤ nClay then
      if nSand ≤ 20 then .ok "Silty Clay Loam"
      else if nSand ≤ 45 then .ok "Clay Loam"
      else .ok "Sandy Clay Loam"
    else if 20 ≤ nClay then
      if nSilt < 28 ∧ 45 < nSand then .ok "Sandy Clay Loam"
      else if 50 ≤ nSilt then .ok "Silt Loam"
      else .ok "Loam"
    else if 80 ≤ nSilt ∧ nClay < 12 then .ok "Silt"
    else if 50 ≤ nSilt then .ok "Silt Loam"
    else if nSilt + 1.5 * nClay < 15 then .ok "Sand"
    else if nSilt + 2 * nClay < 30 then .ok "Loamy Sand"
    else if 52 < nSand ∨ (nClay < 7 ∧ nSilt < 50) then .ok "Sandy Loam"
    else .ok "Loam"

/-- The closed set of twelve USDA texture labels the classifier can
produce on a composition with positive sum ("Loam" is the final
fallback branch of the decision tree). -/
def usdaLabels : List String :=
  ["Clay", "Sandy Clay", "Silty Clay", "Clay Loam", "Silty Clay Loam",
   "Sandy Clay Loam", "Loam", "Silt Loam", "Silt", "Sand", "Loamy Sand",
   "Sandy Loam"]

/-! Intermediate quantities of `calculateLandslideRisk`
(src/server/index.js, lines 240-488).  Each definition is named after
the local variable it embeds. -/

/-- Failure depth `z` (line 257): `rawDepth` when finite and positive,
else the 2.5 m default.  Finiteness is automatic over `ℝ`. -/
noncomputable def zVal (f : Features) : ℝ := if 0 < f.depth then f.depth else 2.5

/-- `fClay = clay / 100` (line 345). -/
noncomputable def fClay (f : Features) : ℝ := f.clay / 100

/-- `fSand = sand / 100` (line 346). -/
noncomputable def fSand (f : Features) : ℝ := f.sand / 100

/-- `fSilt = silt / 100` (line 347). -/
noncomputable def fSilt (f : Features) : ℝ := f.silt / 100

/-- `c_base` (line 349). -/
noncomputable def c_base (f : Features) : ℝ :=
  fClay f * 45 + fSilt f * 12 + fSand f * 0.5

/-- `c_organic` (line 350). -/
noncomputable def c_organic (f : Features) : ℝ := min (f.organic_carbon * 2) 10

/-- `c_dry` (line 351). -/
noncomputable def c_dry (f : Features) : ℝ := c_base f + c_organic f

/-- `saturation` (line 353). -/
noncomputable def saturationVal (f : Features) : ℝ := min (f.rain_7day / 100) 1

/-- `c` before the root-cohesion bonus (line 354). -/
noncomputable def c_preroot (f : Features) : ℝ :=
  c_dry f * (1 - saturationVal f * fClay f * 0.4)

/-- `phi_base` (line 356). -/
noncomputable def phi_base (f : Features) : ℝ :=
  fSand f * 38 + fSilt f * 32 + fClay f * 18

/-- `phi` (line 357).  The `Number.isFinite` fallback to 30 (lines
359-361) cannot fire over `ℝ`. -/
noncomputable def phiVal (f : Features) : ℝ := phi_base f + f.bulk_density / 1000 * 5

/-- `root_cohesion` per vegetation band (lines 363-366). -/
def root_cohesion (clim : Climate) : ℝ :=
  if clim.vegetation = "dense" then 15
  else if clim.vegetation = "moderate" then 8
  else if clim.vegetation = "sparse" then 3
  else 0

/-- `c` after the root-cohesion bonus (line 368).  The bonus is applied
unconditionally, with no failure-depth gate. -/
noncomputable def cVal (f : Features) (clim : Climate) : ℝ :=
  c_preroot f + root_cohesion clim

/-- `rainfall_intensity` (line 370). -/
noncomputable def rainfall_intensity (f : Features) : ℝ := f.rain_current * 10

/-- `antecedent_moisture` (line 371). -/
noncomputable def antecedent_moisture (f : Features) : ℝ := min (f.rain_7day / 150) 1

/-- `infiltration_rate` (line 373). -/
noncomputable def infiltration_rateVal (f : Features) : ℝ :=
  fSand f * 30 + fSilt f * 10 + fClay f * 2

/-- `excess_rain` (line 374). -/
noncomputable def excess_rain (f : Features) : ℝ :=
  max 0 (rainfall_intensity f - infiltration_rateVal f)

/-- `gamma` (line 376). -/
noncomputable def gammaVal (f : Features) : ℝ := f.bulk_density / 100 * 9.81

/-- `beta` (line 377). -/
noncomputable def betaVal (f : Features) : ℝ := f.slope * (π / 180)

/-- `sigma` (line 379). -/
noncomputable def sigmaVal (f : Features) : ℝ :=
  gammaVal f * zVal f * cos (betaVal f) ^ 2

/-- `tau_driving` (line 380). -/
noncomputable def tau_driving (f : Features) : ℝ :=
  gammaVal f * zVal f * sin (betaVal f) * cos (betaVal f)

/-- `base_saturation` (line 383). -/
noncomputable def base_saturation (f : Features) : ℝ := antecedent_moisture f * 0.5

/-- `intensity_factor` (line 384). -/
noncomputable def intensity_factor (f : Features) : ℝ := min (excess_rain f / 20) 0.5

/-- `clay_retention` (line 385). -/
noncomputable def clay_retention (f : Features) : ℝ := fClay f * 0.3

/-- `u` before the clamp (line 387). -/
noncomputable def uRaw (f : Features) : ℝ :=
  sigmaVal f * (base_saturation f + intensity_factor f + clay_retention f)

/-- `u` after the clamp `u = Math.min(u, sigma * 0.9)` (line 388).  The
`Number.isFinite` reset (line 389) cannot fire over `ℝ`. -/
noncomputable def uVal (f : Features) : ℝ := min (uRaw f) (sigmaVal f * 0.9)

/-- `sigma_effective = Math.max(0, sigma - u)` (line 391). -/
noncomputable def sigma_effective (f : Features) : ℝ := max 0 (sigmaVal f - uVal f)

/-- `tanPhi` (line 392). -/
noncomputable def tanPhi (f : Features) : ℝ := tan (phiVal f * (π / 180))

/-- `tau_resisting` (line 393). -/
noncomputable def tau_resisting (f : Features) (clim : Climate) : ℝ :=
  cVal f clim + sigma_effective f * tanPhi f

/-- `FoS` before the near-flat override (line 395).  The
`Number.isFinite` fallback to 15 (line 396) cannot fire over `ℝ`
because the denominator is an exact real. -/
noncomputable def rawFoS (f : Features) (clim : Climate) : ℝ :=
  tau_resisting f clim / (tau_driving f + 0.01)

/-- `FoS` after the near-flat override `if (slope < 5) FoS = 15.0`
(lines 400-402). -/
noncomputable def fosVal (f : Features) (clim : Climate) : ℝ :=
  if f.slope < 5 then 15 else rawFoS f clim

/-- Base `probability` from the slope-banded FoS lookup
(lines 398-417). -/
noncomputable def baseProbability (f : Features) (clim : Climate) : ℝ :=
  if f.slope < 5 then 0
  else if f.slope < 15 then
    if rawFoS f clim < 1 then 0.60
    else if rawFoS f clim < 1.5 then 0.25
    else 0.05
  else if f.slope < 30 then
    if rawFoS f clim < 1 then 0.90
    else if rawFoS f clim < 1.3 then 0.70
    else if rawFoS f clim < 1.7 then 0.35
    else 0.10
  else
    if rawFoS f clim < 1 then 0.98
    else if rawFoS f clim < 1.2 then 0.85
    else if rawFoS f clim < 1.5 then 0.55
    else 0.20

/-- `probability` after the rainfall multipliers (lines 419-420). -/
noncomputable def probVal (f : Features) (clim : Climate) : ℝ :=
  let p1 := if 30 < rainfall_intensity f
    then min (baseProbability f clim * 1.4) 0.99
    else baseProbability f clim
  if 150 < f.rain_7day then min (p1 * 1.3) 0.99 else p1

/-- `level` (lines 422-425). -/
noncomputable def levelVal (f : Features) (clim : Climate) : String :=
  if 0.75 < probVal f clim then "Extreme"
  else if 0.50 < probVal f clim then "High"
  else if 0.25 < probVal f clim then "Medium"
  else "Low"

/-- `sigmaSafe` (line 466); the finiteness conjunct is automatic. -/
noncomputable def sigmaSafe (f : Features) : ℝ :=
  if 0 < sigmaVal f then sigmaVal f else 1

/-- `porePct` (line 467); the `Number.isFinite` alternative cannot fire
over `ℝ`. -/
noncomputable def porePct (f : Features) : ℝ := uVal f / sigmaSafe f * 100

/-- `isSnow` (line 328). -/
def isSnow (f : Features) : Prop :=
  f.code ∈ ([71, 73, 75, 77, 85, 86] : List ℤ) ∨ (f.temp < 2 ∧ 0 < f.rain_current)

noncomputable instance (f : Features) : Decidable (isSnow f) := by
  unfold isSnow
  infer_instance

/-- `thawRisk` (line 316). -/
def thawRisk (f : Features) : Prop := -2 < f.temp ∧ 0 < f.rain_current

noncomputable instance (f : Features) : Decidable (thawRisk f) := by
  unfold thawRisk
  infer_instance

/-- Sea / water-body verdict (lines 261-281). -/
noncomputable def seaVerdict (f : Features) : Verdict :=
  { level := "Safe", environment := "Water Body", soil_type := "Water",
    details := { FoS := 100, probability := 0, cohesion := 0, friction_angle := 0,
                 shear_strength := 0, shear_stress := 0, pore_pressure := 0,
                 saturation := 0, infiltration_rate := 0, root_cohesion := 0,
                 depth := zVal f } }

/-- Ice verdict (lines 283-303). -/
noncomputable def iceVerdict (f : Features) : Verdict :=
  { level := "High", environment := "Ice / Frozen Surface", soil_type := "Ice",
    details := { FoS := 0.9, probability := 85.0, cohesion := 0, friction_angle := 0,
                 shear_strength := 0, shear_stress := 0, pore_pressure := 0,
                 saturation := 0, infiltration_rate := 0, root_cohesion := 0,
                 depth := zVal f } }

/-- Ocean / large water-body verdict (lines 305-313). -/
noncomputable def waterVerdict (f : Features) : Verdict :=
  { level := "Safe", environment := "Water Body", soil_type := "N/A",
    details := { FoS := 100, probability := 0, cohesion := 0, friction_angle := 0,
                 shear_strength := 0, shear_stress := 0, pore_pressure := 0,
                 saturation := 0, infiltration_rate := 0, root_cohesion := 0,
                 depth := zVal f } }

/-- Permafrost verdict (lines 315-326). -/
noncomputable def permafrostVerdict (f : Features) : Verdict :=
  { level := if thawRisk f then "High" else "Low",
    environment := "Permafrost", soil_type := "Frozen",
    details := { FoS := if thawRisk f then 0.8 else 3.0,
                 probability := if thawRisk f then 0.85 else 0.05,
                 cohesion := 0, friction_angle := 0,
                 shear_strength := 0, shear_stress := 0, pore_pressure := 0,
                 saturation := 0, infiltration_rate := 0, root_cohesion := 0,
                 depth := zVal f } }

/-- Snow / avalanche verdict (lines 328-337). -/
noncomputable def snowVerdict (f : Features) : Verdict :=
  { level := if 35 < f.slope then "Extreme" else "High",
    environment := "Snow-covered", soil_type := "Snow/Ice",
    details := { FoS := if 35 < f.slope then 0.7 else 1.1,
                 probability := if 35 < f.slope then 0.95 else 0.70,
                 cohesion := 0, friction_angle := 0,
                 shear_strength := 0, shear_stress := 0, pore_pressure := 0,
                 saturation := 0, infiltration_rate := 0, root_cohesion := 0,
                 depth := zVal f } }

/-- Soil-slope verdict (lines 469-487); each detail is the
`parseFloat(x.toFixed(k))` rounding of the corresponding quantity.  The
`friction_angle` finiteness alternative (line 478) cannot fire over `ℝ`. -/
noncomputable def soilVerdict (f : Features) (clim : Climate) (tex : String) : Verdict :=
  { level := levelVal f clim, environment := clim.zone, soil_type := tex,
    details := { FoS := roundTo 2 (fosVal f clim),
                 probability := roundTo 1 (probVal f clim * 100),
                 cohesion := roundTo 1 (cVal f clim),
                 friction_angle := roundTo 1 (phiVal f),
                 shear_strength := roundTo 1 (tau_resisting f clim),
                 shear_stress := roundTo 1 (tau_driving f),
                 pore_pressure := roundTo 0 (porePct f),
                 saturation := roundTo 0 (antecedent_moisture f * 100),
                 infiltration_rate := roundTo 1 (infiltration_rateVal f),
                 root_cohesion := roundTo 1 (root_cohesion clim),
                 depth := roundTo 2 (zVal f) } }

/-- `calculateLandslideRisk` (src/server/index.js, lines 240-488): the
ordered environment guards followed by the soil-slope path.  The
`throw` coming from `classifySoilTexture` propagates as
`Except.error`. -/
noncomputable def calculateLandslideRisk (f : Features) (clim : Climate) :
    Except String Verdict :=
  if f.slope = 0 ∧ f.elevation = 0 then .ok (seaVerdict f)
  else if f.temp ≤ 0 then .ok (iceVerdict f)
  else if f.isWater = true ∨ (f.elevation ≤ 2 ∧ f.bulk_density < 15) then
    .ok (waterVerdict f)
  else if clim.permafrost = true ∨ f.temp < -10 then .ok (permafrostVerdict f)
  else if isSnow f ∧ 20 < f.slope then .ok (snowVerdict f)
  else
    match classifySoilTexture f.clay f.sand f.silt with
    | .error e => .error e
    | .ok tex => .ok (soilVerdict f clim tex)

/-- Factor of safety reported in the details of a result, with 0 for
the (never-produced by the guards) error case. -/
def detailFoS : Except String Verdict → ℝ
  | .ok v => v.details.FoS
  | .error _ => 0

/-- Probability reported in the details of a result. -/
def detailProb : Except String Verdict → ℝ
  | .ok v => v.details.probability
  | .error _ => 0

/-- Friction angle reported in the details of a result. -/
def detailFriction : Except String Verdict → ℝ
  | .ok v => v.details.friction_angle
  | .error _ => 0

/-- Level reported by a result. -/
def detailLevel : Except String Verdict → String
  | .ok v => v.level
  | .error _ => ""

/-- Environment label reported by a result. -/
def detailEnv : Except String Verdict → String
  | .ok v => v.environment
  | .error _ => ""

/-! The second server variant in `src/server/index.js` (lines 552-1046):
only the parts cited by the root-cohesion depth-gate question are
embedded. -/

/-- Climate record of the second variant (lines 612-615): static, no
permafrost flag. -/
structure V2Climate where
  zone : String
  vegetation : String

/-- The fixed `CLIMATE` of the second variant (lines 612-615). -/
def V2CLIMATE : V2Climate := { zone := "Tropical Monsoon (Am)", vegetation := "dense" }

/-- Depth-banded base strength row (lines 618-623). -/
structure V2Strength where
  c : ℝ
  phi : ℝ
  gamma : ℝ

/-- `getStrengthFromDepth` (lines 625-630): first matching row of
`STRENGTH_TABLE`, with row 1 as the fallback. -/
noncomputable def getStrengthFromDepth (z : ℝ) : V2Strength :=
  if 0 ≤ z ∧ z < 1.5 then ⟨35, 28, 15.5⟩
  else if 1.5 ≤ z ∧ z < 3 then ⟨32, 30, 16.2⟩
  else if 3 ≤ z ∧ z < 5 then ⟨28, 31, 16.8⟩
  else if 5 ≤ z ∧ z < 10 then ⟨25, 32, 17.5⟩
  else ⟨32, 30, 16.2⟩

/-- `computeSoilStrength` (lines 640-691): composition, depth-compaction
and saturation adjustments on a base strength row; `Number(x.toFixed(4))`
is `roundTo 4`. -/
noncomputable def computeSoilStrength (base : V2Strength)
    (clay sand silt z saturation : ℝ) : V2Strength :=
  let c0 := max 0 (base.c + (clay - 30) * 0.6 + (silt - 40) * 0.2)
  let c1 := roundTo 4 c0
  let phi1 := roundTo 4 base.phi
  let phi2 := phi1 + (sand - 30) * 0.12 + (clay - 30) * (-0.06)
  let c2 := if 0.5 < z then c1 * (1 + 0.005 * (z - 0.5)) else c1
  let phi3 := if 0.5 < z then phi2 + 0.2 * (z - 0.5) else phi2
  let c_eff := c2 * max 0 (1 - 0.6 * min 1 saturation)
  let phi4 := min 45 (max 12 phi3)
  ⟨c_eff, phi4, base.gamma⟩

/-- The root-cohesion bonus of the second variant (lines 857-860 and
897): `(CLIMATE.vegetation === "dense" && z <= 1.5) ? 15 : 0` — gated on
a shallow failure depth. -/
noncomputable def v2RootBonus (z : ℝ) : ℝ :=
  if V2CLIMATE.vegetation = "dense" ∧ z ≤ 1.5 then 15 else 0

/-! Concrete fixtures used by the per-claim theorems.  Field order:
rain_current, rain_7day, slope, clay, sand, silt, bulk_density,
elevation, temp, code, isWater, humidity, wind_speed, organic_carbon,
ph, aspect, depth. -/

/-- C1 counterexample bundle: pure sand, an extreme bulk density of
19400 (admitted by the data model, which only demands positivity) and a
45° slope; the derived friction angle is then exactly 135°. -/
def c1cexF : Features := ⟨0, 0, 45, 0, 100, 0, 19400, 100, 10, 0, false, 50, 0, 0, 7, 0, 2.5⟩

/-- Climate with minimal vegetation and no permafrost. -/
def minimalClim : Climate := ⟨"Polar (ET/EF)", "minimal", false⟩

/-- C2 counterexample bundle: water hint set, but temperature −5 °C. -/
def c2cexF : Features := ⟨0, 0, 3, 10, 20, 70, 140, 50, -5, 0, true, 50, 0, 0, 7, 0, 2.5⟩

/-- C2 witness bundle: water hint set and temperature 20 °C. -/
def c2wF : Features := ⟨0, 0, 3, 10, 20, 70, 140, 50, 20, 0, true, 50, 0, 0, 7, 0, 2.5⟩

/-- Climate with moderate vegetation and no permafrost. -/
def moderateClim : Climate := ⟨"Temperate (Cfa/Cfb)", "moderate", false⟩

/-- C3 counterexample bundle: perfectly flat slope but temperature
−5 °C, so the ice guard fires. -/
def c3cexF : Features := ⟨0, 0, 0, 30, 40, 30, 140, 50, -5, 0, false, 50, 0, 0, 7, 0, 2.5⟩

/-- C3 witness bundle: flat slope on the soil path. -/
def c3wF : Features := ⟨0, 0, 0, 30, 40, 30, 140, 100, 20, 0, false, 50, 0, 0, 7, 0, 2.5⟩

/-- C1 witness bundle: an ordinary mid-range soil on a 45° slope. -/
def c1wF : Features := ⟨0, 0, 45, 30, 40, 30, 140, 100, 10, 0, false, 50, 0, 2, 7, 0, 2.5⟩

/-- C6 counterexample bundle (rain 0): same extreme bulk density as the
C1 counterexample, so the friction-angle tangent is negative. -/
def c6cexF : Features := ⟨0, 0, 45, 0, 100, 0, 19400, 100, 10, 0, false, 50, 0, 0, 7, 0, 2.5⟩

/-- C6 witness bundle. -/
def c6wF : Features := ⟨0, 0, 45, 30, 40, 30, 140, 100, 10, 0, false, 50, 0, 2, 7, 0, 2.5⟩

/-- C7 failing input: a composition reported as all zeros (the classifier
answers "Unknown") with an ordinary bulk density of 140, for which the
derived friction angle is 0.7°, far below the promised [5°,45°] band. -/
def c7F : Features := ⟨0, 0, 10, 0, 0, 0, 140, 100, 10, 0, false, 50, 0, 0, 7, 0, 2.5⟩

/-- C8 counterexample bundle: zero bulk density keeps every stress term
at 0 so the FoS is exactly 50, and the 45° band reports probability
0.20 — published as 20 in the verdict. -/
def c8cexF : Features := ⟨0, 0, 45, 0, 100, 0, 0, 100, 10, 0, false, 50, 0, 0, 7, 0, 2.5⟩

/-- C8 witness bundle: sea guard input (slope 0 at elevation 0). -/
def c8wF : Features := ⟨0, 0, 0, 0, 0, 0, 0, 0, 20, 0, true, 50, 0, 0, 7, 0, 2.5⟩

/-- C9 failing input: default failure depth 2.5 m (deeper than the
1.5 m root zone). -/
def c9F : Features := ⟨0, 0, 20, 40, 30, 30, 140, 100, 25, 0, false, 70, 0, 2, 7, 0, 2.5⟩

/-- Climate with dense vegetation and no permafrost. -/
def denseClim : Climate := ⟨"Tropical (Af/Am)", "dense", false⟩

/-- C10 bundle: negative clay percentage reaching the soil-slope path. -/
def c10F : Features := ⟨0, 0, 10, -1, 50, 51, 140, 100, 10, 0, false, 50, 0, 0, 7, 0, 2.5⟩

/-! Helper lemmas. -/

lemma roundTo_intCast (k : ℕ) (z : ℤ) : roundTo k ((z : ℝ)) = (z : ℝ) := by
  unfold roundTo
  have h : ((z : ℝ)) * 10 ^ k = ((z * 10 ^ k : ℤ) : ℝ) := by push_cast; ring
  rw [h, round_intCast]
  push_cast
  rw [mul_div_assoc, div_self (by positivity), mul_one]

lemma roundTo_div_pow (k : ℕ) (z : ℤ) :
    roundTo k ((z : ℝ) / 10 ^ k) = (z : ℝ) / 10 ^ k := by
  unfold roundTo
  have h : ((z : ℝ) / 10 ^ k) * 10 ^ k = ((z : ℤ) : ℝ) := by
    field_simp
  rw [h, round_intCast]

lemma roundTo_nonneg (k : ℕ) (x : ℝ) (hx : 0 ≤ x) : 0 ≤ roundTo k x := by
  unfold roundTo
  apply div_nonneg _ (by positivity)
  have h0 : (0 : ℤ) ≤ round (x * 10 ^ k) := by
    rw [round_eq]
    apply Int.floor_nonneg.mpr
    have : (0 : ℝ) ≤ x * 10 ^ k := by positivity
    linarith
  exact_mod_cast h0

lemma roundTo_mono (k : ℕ) {x y : ℝ} (h : x ≤ y) : roundTo k x ≤ roundTo k y := by
  unfold roundTo
  apply div_le_div_of_nonneg_right ?_ (by positivity)
  have hr : round (x * 10 ^ k) ≤ round (y * 10 ^ k) := by
    rw [round_eq, round_eq]
    apply Int.floor_mono
    have : x * 10 ^ k ≤ y * 10 ^ k :=
      mul_le_mul_of_nonneg_right h (by positivity)
    linarith
  exact_mod_cast hr

set_option maxHeartbeats 1000000 in
lemma classify_mem_usda (clay sand silt : ℝ)
    (hneg : ¬(clay < 0 ∨ sand < 0 ∨ silt < 0))
    (hne : ¬(clay + sand + silt = 0)) :
    classifySoilTexture clay sand silt ∈ usdaLabels.map Except.ok := by
  simp only [classifySoilTexture, if_neg hneg, if_neg hne]
  split_ifs <;> simp [usdaLabels]

lemma classify_isOk (clay sand silt : ℝ) (hc : 0 ≤ clay) (hs : 0 ≤ sand)
    (hsi : 0 ≤ silt) :
    ∃ l, classifySoilTexture clay sand silt = Except.ok l := by
  have hneg : ¬(clay < 0 ∨ sand < 0 ∨ silt < 0) := by push_neg; exact ⟨hc, hs, hsi⟩
  by_cases h0 : clay + sand + silt = 0
  · exact ⟨"Unknown", by simp [classifySoilTexture, hneg, h0]⟩
  · rcases List.mem_map.mp (classify_mem_usda clay sand silt hneg h0) with ⟨l, _, hl⟩
    exact ⟨l, hl.symm⟩

/-- C4: `classifySoilTexture` is total on valid compositions: a
non-negative triple with sum zero yields "Unknown", and a non-negative
triple with positive sum yields one of the twelve USDA labels (never
"Unknown", never an exception); "Loam" is the final fallback branch. -/
theorem c4_soil_texture_total (clay sand silt : ℝ) (hc : 0 ≤ clay) (hs : 0 ≤ sand)
    (hsi : 0 ≤ silt) :
    (clay + sand + silt = 0 → classifySoilTexture clay sand silt = Except.ok "Unknown") ∧
    (0 < clay + sand + silt →
      classifySoilTexture clay sand silt ∈ usdaLabels.map Except.ok ∧
      classifySoilTexture clay sand silt ≠ Except.ok "Unknown") := by
  have hneg : ¬(clay < 0 ∨ sand < 0 ∨ silt < 0) := by push_neg; exact ⟨hc, hs, hsi⟩
  constructor
  · intro h0
    simp [classifySoilTexture, hneg, h0]
  · intro hpos
    have hmem := classify_mem_usda clay sand silt hneg hpos.ne'
    refine ⟨hmem, ?_⟩
    intro hu
    rw [hu] at hmem
    simp [usdaLabels] at hmem

/-- Witness for C4 at the concrete composition (40, 30, 30). -/
theorem c4_soil_texture_total_witness :
    (0 : ℝ) ≤ 40 ∧ (0 : ℝ) ≤ 30 ∧
    (((40 : ℝ) + 30 + 30 = 0 →
        classifySoilTexture (40 : ℝ) 30 30 = Except.ok "Unknown") ∧
      (0 < (40 : ℝ) + 30 + 30 →
        classifySoilTexture (40 : ℝ) 30 30 ∈ usdaLabels.map Except.ok ∧
        classifySoilTexture (40 : ℝ) 30 30 ≠ Except.ok "Unknown")) :=
  ⟨by norm_num, by norm_num,
    c4_soil_texture_total 40 30 30 (by norm_num) (by norm_num) (by norm_num)⟩

/-- C5: the pore pressure is clamped to at most 0.9 of the normal
stress, and the effective normal stress is never negative (lines
388-391). -/
theorem c5_pore_pressure_clamped (f : Features) :
    uVal f ≤ 0.9 * sigmaVal f ∧ 0 ≤ sigma_effective f := by
  constructor
  · calc uVal f ≤ sigmaVal f * 0.9 := min_le_right _ _
      _ = 0.9 * sigmaVal f := by ring
  · exact le_max_left _ _

/-- C2 (amended): a water-hint bundle with temperature above 0 °C gets
the Safe / "Water Body" verdict with the sentinel-maximum FoS 100.  The
amendment is forced because the frozen-ground guard (line 283) runs
before the water-hint guard (line 305). -/
theorem c2_water_hint_safe (f : Features) (clim : Climate) (hw : f.isWater = true)
    (ht : 0 < f.temp) :
    detailLevel (calculateLandslideRisk f clim) = "Safe" ∧
    detailEnv (calculateLandslideRisk f clim) = "Water Body" ∧
    detailFoS (calculateLandslideRisk f clim) = 100 := by
  unfold calculateLandslideRisk
  by_cases h1 : f.slope = 0 ∧ f.elevation = 0
  · rw [if_pos h1]
    exact ⟨rfl, rfl, rfl⟩
  · rw [if_neg h1, if_neg (not_le.mpr ht), if_pos (Or.inl hw)]
    exact ⟨rfl, rfl, rfl⟩

/-- Witness for C2 (amended) at a concrete warm water-hint bundle. -/
theorem c2_water_hint_safe_witness :
    c2wF.isWater = true ∧ (0 : ℝ) < c2wF.temp ∧
    (detailLevel (calculateLandslideRisk c2wF denseClim) = "Safe" ∧
     detailEnv (calculateLandslideRisk c2wF denseClim) = "Water Body" ∧
     detailFoS (calculateLandslideRisk c2wF denseClim) = 100) :=
  ⟨rfl, by norm_num [c2wF],
   c2_water_hint_safe c2wF denseClim rfl (by norm_num [c2wF])⟩

/-- C2 counterexample: with the water hint set but temperature −5 °C
the engine returns the ice verdict (level "High", environment
"Ice / Frozen Surface"), not the Safe water verdict the claim
promises for every water-hint bundle. -/
theorem c2_water_hint_cex :
    c2cexF.isWater = true ∧
    detailLevel (calculateLandslideRisk c2cexF denseClim) = "High" ∧
    detailEnv (calculateLandslideRisk c2cexF denseClim) = "Ice / Frozen Surface" := by
  refine ⟨rfl, ?_, ?_⟩ <;>
  · unfold calculateLandslideRisk
    rw [if_neg (by norm_num [c2cexF]), if_pos (by norm_num [c2cexF])]
    rfl

/-- C3 (amended): any bundle that reaches the soil-slope path with a
slope below the 5° near-flat threshold gets FoS forced to the sentinel
15, probability 0 and level "Low".  The amendment restricts the claim
to the soil-slope path, because the earlier guards (sea, ice,
permafrost) can return other levels and FoS values on flat terrain. -/
theorem c3_flat_slope_sentinel (f : Features) (clim : Climate)
    (hflat : f.slope < 5)
    (h1 : ¬(f.slope = 0 ∧ f.elevation = 0))
    (ht : 0 < f.temp)
    (hw : f.isWater = false)
    (h3 : ¬(f.elevation ≤ 2 ∧ f.bulk_density < 15))
    (hp : clim.permafrost = false)
    (hc : 0 ≤ f.clay) (hs : 0 ≤ f.sand) (hsi : 0 ≤ f.silt) :
    detailFoS (calculateLandslideRisk f clim) = 15 ∧
    detailProb (calculateLandslideRisk f clim) = 0 ∧
    detailLevel (calculateLandslideRisk f clim) = "Low" := by
  have hg3 : ¬(f.isWater = true ∨ (f.elevation ≤ 2 ∧ f.bulk_density < 15)) := by
    rw [hw]
    simp only [Bool.false_eq_true, false_or]
    exact h3
  have hg4 : ¬(clim.permafrost = true ∨ f.temp < -10) := by
    rw [hp]
    simp only [Bool.false_eq_true, false_or]
    push_neg
    linarith
  have hg5 : ¬(isSnow f ∧ 20 < f.slope) := by
    rintro ⟨-, h20⟩
    linarith
  obtain ⟨l, hl⟩ := classify_isOk f.clay f.sand f.silt hc hs hsi
  have hbase : baseProbability f clim = 0 := by
    unfold baseProbability
    rw [if_pos hflat]
  have hprob : probVal f clim = 0 := by
    unfold probVal
    rw [hbase]
    norm_num [min_def]
  unfold calculateLandslideRisk
  rw [if_neg h1, if_neg (not_le.mpr ht), if_neg hg3, if_neg hg4, if_neg hg5]
  simp only [hl]
  refine ⟨?_, ?_, ?_⟩
  · show roundTo 2 (fosVal f clim) = 15
    unfold fosVal
    rw [if_pos hflat]
    have h15 : (15 : ℝ) = ((15 : ℤ) : ℝ) := by norm_num
    rw [h15, roundTo_intCast]
  · show roundTo 1 (probVal f clim * 100) = 0
    rw [hprob]
    have h00 : (0 : ℝ) * 100 = ((0 : ℤ) : ℝ) := by norm_num
    rw [h00, roundTo_intCast]
    norm_num
  · show levelVal f clim = "Low"
    unfold levelVal
    rw [hprob]
    norm_num

/-- Witness for C3 (amended) at a flat bundle on the soil path. -/
theorem c3_flat_slope_sentinel_witness :
    c3wF.slope < 5 ∧ ¬(c3wF.slope = 0 ∧ c3wF.elevation = 0) ∧ 0 < c3wF.temp ∧
    (detailFoS (calculateLandslideRisk c3wF moderateClim) = 15 ∧
     detailProb (calculateLandslideRisk c3wF moderateClim) = 0 ∧
     detailLevel (calculateLandslideRisk c3wF moderateClim) = "Low") :=
  ⟨by norm_num [c3wF], by norm_num [c3wF], by norm_num [c3wF],
   c3_flat_slope_sentinel c3wF moderateClim (by norm_num [c3wF]) (by norm_num [c3wF])
     (by norm_num [c3wF]) rfl (by norm_num [c3wF]) rfl (by norm_num [c3wF])
     (by norm_num [c3wF]) (by norm_num [c3wF])⟩

/-- C3 counterexample: a perfectly flat bundle at −5 °C is routed to
the ice guard, which reports level "High" and FoS 0.9 ≠ 15, refuting
the claim that a 0° slope always yields at most "Low" with the
flat-ground sentinel. -/
theorem c3_flat_slope_cex :
    c3cexF.slope = 0 ∧
    detailLevel (calculateLandslideRisk c3cexF moderateClim) = "High" ∧
    detailFoS (calculateLandslideRisk c3cexF moderateClim) = 0.9 ∧
    (0.9 : ℝ) ≠ 15 := by
  refine ⟨rfl, ?_, ?_, by norm_num⟩ <;>
  · unfold calculateLandslideRisk
    rw [if_neg (by norm_num [c3cexF]), if_pos (by norm_num [c3cexF])]
    rfl

lemma zVal_pos (f : Features) : 0 < zVal f := by
  unfold zVal
  split_ifs with h
  · exact h
  · norm_num

lemma root_cohesion_nonneg (clim : Climate) : 0 ≤ root_cohesion clim := by
  unfold root_cohesion
  split_ifs <;> norm_num

lemma c_dry_nonneg (f : Features) (hc : 0 ≤ f.clay) (hs : 0 ≤ f.sand)
    (hsi : 0 ≤ f.silt) (hoc : 0 ≤ f.organic_carbon) : 0 ≤ c_dry f := by
  unfold c_dry c_base c_organic fClay fSand fSilt
  have h1 : (0 : ℝ) ≤ min (f.organic_carbon * 2) 10 :=
    le_min (by linarith) (by norm_num)
  linarith

lemma c_preroot_nonneg (f : Features) (hc : 0 ≤ f.clay) (hc100 : f.clay ≤ 100)
    (hs : 0 ≤ f.sand) (hsi : 0 ≤ f.silt) (hoc : 0 ≤ f.organic_carbon)
    (hr7 : 0 ≤ f.rain_7day) : 0 ≤ c_preroot f := by
  unfold c_preroot
  apply mul_nonneg (c_dry_nonneg f hc hs hsi hoc)
  have hsat1 : saturationVal f ≤ 1 := min_le_right _ _
  have hsat0 : 0 ≤ saturationVal f :=
    le_min (div_nonneg hr7 (by norm_num)) (by norm_num)
  have hfc1 : fClay f ≤ 1 := by unfold fClay; linarith
  have hfc0 : 0 ≤ fClay f := by unfold fClay; linarith
  nlinarith

lemma cVal_nonneg (f : Features) (clim : Climate) (hc : 0 ≤ f.clay)
    (hc100 : f.clay ≤ 100) (hs : 0 ≤ f.sand) (hsi : 0 ≤ f.silt)
    (hoc : 0 ≤ f.organic_carbon) (hr7 : 0 ≤ f.rain_7day) : 0 ≤ cVal f clim :=
  add_nonneg (c_preroot_nonneg f hc hc100 hs hsi hoc hr7) (root_cohesion_nonneg clim)

lemma gammaVal_nonneg (f : Features) (hbd : 0 ≤ f.bulk_density) : 0 ≤ gammaVal f := by
  unfold gammaVal
  have := div_nonneg hbd (by norm_num : (0 : ℝ) ≤ 100)
  nlinarith

lemma betaVal_nonneg (f : Features) (h : 0 ≤ f.slope) : 0 ≤ betaVal f :=
  mul_nonneg h (by positivity)

lemma betaVal_le_half_pi (f : Features) (h : f.slope ≤ 90) : betaVal f ≤ π / 2 := by
  unfold betaVal
  calc f.slope * (π / 180) ≤ 90 * (π / 180) :=
        mul_le_mul_of_nonneg_right h (by positivity)
    _ = π / 2 := by ring

lemma sigmaVal_nonneg (f : Features) (hbd : 0 ≤ f.bulk_density) : 0 ≤ sigmaVal f :=
  mul_nonneg (mul_nonneg (gammaVal_nonneg f hbd) (zVal_pos f).le)
    (sq_nonneg _)

lemma tau_driving_nonneg (f : Features) (hbd : 0 ≤ f.bulk_density)
    (h0 : 0 ≤ f.slope) (h90 : f.slope ≤ 90) : 0 ≤ tau_driving f := by
  unfold tau_driving
  have hsin : 0 ≤ sin (betaVal f) :=
    sin_nonneg_of_nonneg_of_le_pi (betaVal_nonneg f h0)
      (le_trans (betaVal_le_half_pi f h90) (by linarith [pi_pos]))
  have hcos : 0 ≤ cos (betaVal f) :=
    cos_nonneg_of_mem_Icc (Set.mem_Icc.mpr
      ⟨by linarith [betaVal_nonneg f h0, pi_pos], betaVal_le_half_pi f h90⟩)
  exact mul_nonneg (mul_nonneg (mul_nonneg
    (gammaVal_nonneg f hbd) (zVal_pos f).le) hsin) hcos

lemma denom_pos (f : Features) (hbd : 0 ≤ f.bulk_density)
    (h0 : 0 ≤ f.slope) (h90 : f.slope ≤ 90) : 0 < tau_driving f + 0.01 := by
  have := tau_driving_nonneg f hbd h0 h90
  norm_num
  linarith

lemma phiVal_nonneg (f : Features) (hc : 0 ≤ f.clay) (hs : 0 ≤ f.sand)
    (hsi : 0 ≤ f.silt) (hbd : 0 ≤ f.bulk_density) : 0 ≤ phiVal f := by
  unfold phiVal phi_base fSand fSilt fClay
  linarith

lemma tanPhi_nonneg (f : Features) (h0 : 0 ≤ phiVal f) (h90 : phiVal f ≤ 90) :
    0 ≤ tanPhi f := by
  unfold tanPhi
  have hx0 : 0 ≤ phiVal f * (π / 180) := mul_nonneg h0 (by positivity)
  have hx2 : phiVal f * (π / 180) ≤ π / 2 := by
    calc phiVal f * (π / 180) ≤ 90 * (π / 180) :=
          mul_le_mul_of_nonneg_right h90 (by positivity)
      _ = π / 2 := by ring
  rw [tan_eq_sin_div_cos]
  apply div_nonneg
  · exact sin_nonneg_of_nonneg_of_le_pi hx0 (by linarith [pi_pos])
  · exact cos_nonneg_of_mem_Icc (Set.mem_Icc.mpr ⟨by linarith [pi_pos], hx2⟩)

lemma tau_resisting_nonneg (f : Features) (clim : Climate) (hc : 0 ≤ f.clay)
    (hc100 : f.clay ≤ 100) (hs : 0 ≤ f.sand) (hsi : 0 ≤ f.silt)
    (hoc : 0 ≤ f.organic_carbon) (hr7 : 0 ≤ f.rain_7day)
    (hbd : 0 ≤ f.bulk_density) (hphi : phiVal f ≤ 90) :
    0 ≤ tau_resisting f clim := by
  unfold tau_resisting
  apply add_nonneg (cVal_nonneg f clim hc hc100 hs hsi hoc hr7)
  exact mul_nonneg (le_max_left _ _)
    (tanPhi_nonneg f (phiVal_nonneg f hc hs hsi hbd) hphi)

lemma rawFoS_nonneg (f : Features) (clim : Climate) (hc : 0 ≤ f.clay)
    (hc100 : f.clay ≤ 100) (hs : 0 ≤ f.sand) (hsi : 0 ≤ f.silt)
    (hoc : 0 ≤ f.organic_carbon) (hr7 : 0 ≤ f.rain_7day)
    (hbd : 0 ≤ f.bulk_density) (h0 : 0 ≤ f.slope) (h90 : f.slope ≤ 90)
    (hphi : phiVal f ≤ 90) : 0 ≤ rawFoS f clim :=
  div_nonneg (tau_resisting_nonneg f clim hc hc100 hs hsi hoc hr7 hbd hphi)
    (denom_pos f hbd h0 h90).le

/-- C1 (amended): on any feature bundle with slope in [0°,90°),
non-negative composition, organic carbon, bulk density and rainfall,
and whose derived (unclamped) friction angle does not exceed 90°, the
engine returns a verdict (no exception) whose FoS detail is
non-negative; finiteness is inherent in the real-number model.  The
friction-angle bound is the amendment: the source never clamps `phi`,
so extreme bulk densities can push `tan(phi)` negative. -/
theorem c1_fos_finite_nonneg (f : Features) (clim : Climate)
    (hslope0 : 0 ≤ f.slope) (hslope90 : f.slope < 90)
    (hc : 0 ≤ f.clay) (hc100 : f.clay ≤ 100)
    (hs : 0 ≤ f.sand) (hsi : 0 ≤ f.silt)
    (hoc : 0 ≤ f.organic_carbon) (hbd : 0 ≤ f.bulk_density)
    (hr7 : 0 ≤ f.rain_7day) (hphi : phiVal f ≤ 90) :
    (calculateLandslideRisk f clim).isOk = true ∧
    0 ≤ detailFoS (calculateLandslideRisk f clim) := by
  unfold calculateLandslideRisk
  by_cases h1 : f.slope = 0 ∧ f.elevation = 0
  · rw [if_pos h1]
    refine ⟨rfl, ?_⟩
    show (0 : ℝ) ≤ (seaVerdict f).details.FoS
    norm_num [seaVerdict]
  rw [if_neg h1]
  by_cases h2 : f.temp ≤ 0
  · rw [if_pos h2]
    refine ⟨rfl, ?_⟩
    show (0 : ℝ) ≤ (iceVerdict f).details.FoS
    norm_num [iceVerdict]
  rw [if_neg h2]
  by_cases h3 : f.isWater = true ∨ (f.elevation ≤ 2 ∧ f.bulk_density < 15)
  · rw [if_pos h3]
    refine ⟨rfl, ?_⟩
    show (0 : ℝ) ≤ (waterVerdict f).details.FoS
    norm_num [waterVerdict]
  rw [if_neg h3]
  by_cases h4 : clim.permafrost = true ∨ f.temp < -10
  · rw [if_pos h4]
    refine ⟨rfl, ?_⟩
    show (0 : ℝ) ≤ (permafrostVerdict f).details.FoS
    unfold permafrostVerdict
    dsimp only
    split_ifs <;> norm_num
  rw [if_neg h4]
  by_cases h5 : isSnow f ∧ 20 < f.slope
  · rw [if_pos h5]
    refine ⟨rfl, ?_⟩
    show (0 : ℝ) ≤ (snowVerdict f).details.FoS
    unfold snowVerdict
    dsimp only
    split_ifs <;> norm_num
  rw [if_neg h5]
  obtain ⟨l, hl⟩ := classify_isOk f.clay f.sand f.silt hc hs hsi
  simp only [hl]
  refine ⟨rfl, ?_⟩
  show (0 : ℝ) ≤ roundTo 2 (fosVal f clim)
  apply roundTo_nonneg
  unfold fosVal
  split_ifs
  · norm_num
  · exact rawFoS_nonneg f clim hc hc100 hs hsi hoc hr7 hbd hslope0 hslope90.le hphi

/-- Witness for C1 (amended) at an ordinary mid-range soil bundle on a
45° slope. -/
theorem c1_fos_finite_nonneg_witness :
    (0 : ℝ) ≤ c1wF.slope ∧ c1wF.slope < 90 ∧ phiVal c1wF ≤ 90 ∧
    ((calculateLandslideRisk c1wF moderateClim).isOk = true ∧
     0 ≤ detailFoS (calculateLandslideRisk c1wF moderateClim)) :=
  ⟨by norm_num [c1wF], by norm_num [c1wF],
   by unfold phiVal phi_base fSand fSilt fClay; norm_num [c1wF],
   c1_fos_finite_nonneg c1wF moderateClim (by norm_num [c1wF]) (by norm_num [c1wF])
     (by norm_num [c1wF]) (by norm_num [c1wF]) (by norm_num [c1wF]) (by norm_num [c1wF])
     (by norm_num [c1wF]) (by norm_num [c1wF]) (by norm_num [c1wF])
     (by unfold phiVal phi_base fSand fSilt fClay; norm_num [c1wF])⟩

/-- C1 counterexample: the data model admits any positive bulk density,
and at bulk density 19400 with pure sand the unclamped friction angle is
exactly 135°, whose tangent is −1; on a 45° slope the published FoS
detail is then exactly −1, refuting non-negativity of the claim as
stated. -/
theorem c1_fos_negative_cex :
    detailFoS (calculateLandslideRisk c1cexF minimalClim) = -1 ∧ ((-1 : ℝ) < 0) := by
  refine ⟨?_, by norm_num⟩
  have hz : zVal c1cexF = 2.5 := by norm_num [zVal, c1cexF]
  have hbeta : betaVal c1cexF = π / 4 := by
    unfold betaVal
    rw [show c1cexF.slope = (45 : ℝ) from rfl]
    ring
  have hcos2 : cos (betaVal c1cexF) ^ 2 = 1 / 2 := by
    rw [hbeta, Real.cos_pi_div_four, div_pow,
        Real.sq_sqrt (by norm_num : (0 : ℝ) ≤ 2)]
    norm_num
  have hsqrt2 : Real.sqrt 2 * Real.sqrt 2 = 2 :=
    Real.mul_self_sqrt (by norm_num)
  have hsc : sin (betaVal c1cexF) * cos (betaVal c1cexF) = 1 / 2 := by
    rw [hbeta, Real.sin_pi_div_four, Real.cos_pi_div_four, div_mul_div_comm, hsqrt2]
    norm_num
  have hgamma : gammaVal c1cexF = 1903.14 := by
    unfold gammaVal
    norm_num [c1cexF]
  have hsigma : sigmaVal c1cexF = 2378.925 := by
    unfold sigmaVal
    rw [hgamma, hz, hcos2]
    norm_num
  have htau : tau_driving c1cexF = 2378.925 := by
    unfold tau_driving
    rw [hgamma, hz]
    have hre : (1903.14 : ℝ) * 2.5 * sin (betaVal c1cexF) * cos (betaVal c1cexF)
        = 1903.14 * 2.5 * (sin (betaVal c1cexF) * cos (betaVal c1cexF)) := by ring
    rw [hre, hsc]
    norm_num
  have hphi2 : phiVal c1cexF = 135 := by
    unfold phiVal phi_base fSand fSilt fClay
    norm_num [c1cexF]
  have htan : tanPhi c1cexF = -1 := by
    unfold tanPhi
    rw [hphi2, show (135 : ℝ) * (π / 180) = π - π / 4 by ring,
        Real.tan_pi_sub, Real.tan_pi_div_four]
  have hroot : root_cohesion minimalClim = 0 := by rfl
  have hcV : cVal c1cexF minimalClim = 0.5 := by
    unfold cVal c_preroot c_dry c_base c_organic saturationVal fClay fSand fSilt
    rw [hroot]
    norm_num [c1cexF, min_def]
  have hbs : base_saturation c1cexF = 0 := by
    unfold base_saturation antecedent_moisture
    norm_num [c1cexF, min_def]
  have hif : intensity_factor c1cexF = 0 := by
    unfold intensity_factor excess_rain rainfall_intensity infiltration_rateVal fSand fSilt fClay
    norm_num [c1cexF, max_def, min_def]
  have hcr : clay_retention c1cexF = 0 := by
    unfold clay_retention fClay
    norm_num [c1cexF]
  have huRaw : uRaw c1cexF = 0 := by
    unfold uRaw
    rw [hbs, hif, hcr]
    ring
  have hu : uVal c1cexF = 0 := by
    unfold uVal
    rw [huRaw, hsigma]
    norm_num [min_def]
  have hse : sigma_effective c1cexF = 2378.925 := by
    unfold sigma_effective
    rw [hsigma, hu]
    norm_num [max_def]
  have htr : tau_resisting c1cexF minimalClim = -2378.425 := by
    unfold tau_resisting
    rw [hcV, hse, htan]
    norm_num
  have hFoS : rawFoS c1cexF minimalClim = -2378.425 / 2378.935 := by
    unfold rawFoS
    rw [htr, htau]
    norm_num
  have hcl : classifySoilTexture c1cexF.clay c1cexF.sand c1cexF.silt = Except.ok "Sand" := by
    show classifySoilTexture (0 : ℝ) 100 0 = Except.ok "Sand"
    norm_num [classifySoilTexture]
  unfold calculateLandslideRisk
  rw [if_neg (by norm_num [c1cexF]), if_neg (by norm_num [c1cexF]),
      if_neg (by norm_num [c1cexF]), if_neg (by norm_num [c1cexF, minimalClim]),
      if_neg (by norm_num [isSnow, c1cexF])]
  simp only [hcl]
  show roundTo 2 (fosVal c1cexF minimalClim) = -1
  unfold fosVal
  rw [if_neg (by norm_num [c1cexF]), hFoS]
  unfold roundTo
  have hb : (0 : ℝ) < 2378.935 := by norm_num
  have hval : ((-2378.425 / 2378.935 : ℝ) * 10 ^ 2) = -237842.5 / 2378.935 := by
    rw [div_mul_eq_mul_div]
    norm_num
  have hround : round ((-2378.425 / 2378.935 : ℝ) * 10 ^ 2) = -100 := by
    rw [round_eq, hval]
    have h1 : ((-100 : ℤ) : ℝ) ≤ -237842.5 / 2378.935 + 1 / 2 := by
      have hd : (-100.5 : ℝ) ≤ -237842.5 / 2378.935 := by
        rw [le_div_iff₀ hb]
        norm_num
      push_cast
      linarith
    have h2 : -237842.5 / 2378.935 + 1 / 2 < ((-100 : ℤ) : ℝ) + 1 := by
      have hd : -237842.5 / 2378.935 < (-99.5 : ℝ) := by
        rw [div_lt_iff₀ hb]
        norm_num
      push_cast
      linarith
    exact Int.floor_eq_iff.mpr ⟨h1, h2⟩
  rw [hround]
  norm_num

/-- C6 (amended): holding every other feature fixed, with slope in
[0°,90°], non-negative composition, organic carbon and bulk density,
and the derived (unclamped) friction angle at most 90°, increasing
`rain_7day` never increases the computed FoS (nor its rounded detail).
The friction-angle bound is the amendment: without the clamp promised
by the spec, an extreme bulk density makes `tan(phi)` negative and more
pore pressure then raises the FoS. -/
theorem c6_rain_monotone (f : Features) (clim : Climate) (r1 r2 : ℝ) (hr : r1 ≤ r2)
    (hslope0 : 0 ≤ f.slope) (hslope90 : f.slope ≤ 90)
    (hc : 0 ≤ f.clay)
    (hs : 0 ≤ f.sand) (hsi : 0 ≤ f.silt)
    (hoc : 0 ≤ f.organic_carbon) (hbd : 0 ≤ f.bulk_density)
    (hphi : phiVal f ≤ 90) :
    fosVal { f with rain_7day := r2 } clim ≤ fosVal { f with rain_7day := r1 } clim ∧
    roundTo 2 (fosVal { f with rain_7day := r2 } clim) ≤
      roundTo 2 (fosVal { f with rain_7day := r1 } clim) := by
  set g1 : Features := { f with rain_7day := r1 } with hg1
  set g2 : Features := { f with rain_7day := r2 } with hg2
  have hfc0 : 0 ≤ fClay f := by
    unfold fClay
    linarith
  have hsat : saturationVal g1 ≤ saturationVal g2 := by
    show min (r1 / 100) 1 ≤ min (r2 / 100) 1
    exact min_le_min (by linarith) le_rfl
  have hcdry0 : 0 ≤ c_dry f := c_dry_nonneg f hc hs hsi hoc
  have hcv : cVal g2 clim ≤ cVal g1 clim := by
    unfold cVal c_preroot
    apply add_le_add_right
    rw [show c_dry g2 = c_dry f from rfl, show c_dry g1 = c_dry f from rfl,
        show fClay g2 = fClay f from rfl, show fClay g1 = fClay f from rfl]
    apply mul_le_mul_of_nonneg_left ?_ hcdry0
    apply sub_le_sub_left
    exact mul_le_mul_of_nonneg_right
      (mul_le_mul_of_nonneg_right hsat hfc0) (by norm_num)
  have ham : antecedent_moisture g1 ≤ antecedent_moisture g2 := by
    show min (r1 / 150) 1 ≤ min (r2 / 150) 1
    exact min_le_min (by linarith) le_rfl
  have hbs : base_saturation g1 ≤ base_saturation g2 :=
    mul_le_mul_of_nonneg_right ham (by norm_num)
  have hsg0 : 0 ≤ sigmaVal f := sigmaVal_nonneg f hbd
  have huRaw : uRaw g1 ≤ uRaw g2 := by
    unfold uRaw
    rw [show sigmaVal g1 = sigmaVal f from rfl, show sigmaVal g2 = sigmaVal f from rfl]
    apply mul_le_mul_of_nonneg_left ?_ hsg0
    have hieq : intensity_factor g1 = intensity_factor g2 := rfl
    have hcreq : clay_retention g1 = clay_retention g2 := rfl
    linarith
  have hu : uVal g1 ≤ uVal g2 := by
    unfold uVal
    rw [show sigmaVal g1 = sigmaVal f from rfl, show sigmaVal g2 = sigmaVal f from rfl]
    exact min_le_min huRaw le_rfl
  have hse : sigma_effective g2 ≤ sigma_effective g1 := by
    unfold sigma_effective
    rw [show sigmaVal g1 = sigmaVal f from rfl, show sigmaVal g2 = sigmaVal f from rfl]
    exact max_le_max le_rfl (sub_le_sub_left hu _)
  have htanf : 0 ≤ tanPhi f :=
    tanPhi_nonneg f (phiVal_nonneg f hc hs hsi hbd) hphi
  have htr : tau_resisting g2 clim ≤ tau_resisting g1 clim := by
    unfold tau_resisting
    have h1 : sigma_effective g2 * tanPhi g2 ≤ sigma_effective g1 * tanPhi g1 := by
      rw [show tanPhi g2 = tanPhi f from rfl, show tanPhi g1 = tanPhi f from rfl]
      exact mul_le_mul_of_nonneg_right hse htanf
    exact add_le_add hcv h1
  have hD : 0 < tau_driving f + 0.01 := denom_pos f hbd hslope0 hslope90
  have hraw : rawFoS g2 clim ≤ rawFoS g1 clim := by
    unfold rawFoS
    rw [show tau_driving g2 = tau_driving f from rfl,
        show tau_driving g1 = tau_driving f from rfl]
    exact div_le_div_of_nonneg_right htr hD.le
  have hmain : fosVal g2 clim ≤ fosVal g1 clim := by
    unfold fosVal
    rw [show g2.slope = f.slope from rfl, show g1.slope = f.slope from rfl]
    split_ifs
    · exact le_rfl
    · exact hraw
  exact ⟨hmain, roundTo_mono 2 hmain⟩

/-- Witness for C6 (amended): raising the 7-day rainfall from 0 to
50 mm on an ordinary mid-range bundle. -/
theorem c6_rain_monotone_witness :
    (0 : ℝ) ≤ 50 ∧ phiVal c6wF ≤ 90 ∧
    (fosVal { c6wF with rain_7day := (50 : ℝ) } moderateClim ≤
       fosVal { c6wF with rain_7day := (0 : ℝ) } moderateClim ∧
     roundTo 2 (fosVal { c6wF with rain_7day := (50 : ℝ) } moderateClim) ≤
       roundTo 2 (fosVal { c6wF with rain_7day := (0 : ℝ) } moderateClim)) :=
  ⟨by norm_num, by unfold phiVal phi_base fSand fSilt fClay; norm_num [c6wF],
   c6_rain_monotone c6wF moderateClim 0 50 (by norm_num) (by norm_num [c6wF])
     (by norm_num [c6wF]) (by norm_num [c6wF]) (by norm_num [c6wF])
     (by norm_num [c6wF]) (by norm_num [c6wF]) (by norm_num [c6wF])
     (by unfold phiVal phi_base fSand fSilt fClay; norm_num [c6wF])⟩

/-- C6 counterexample: on the extreme-bulk-density bundle (friction
angle 135°, tangent −1) raising `rain_7day` from 0 to 150 mm raises the
computed FoS from −2378.425/2378.935 to −1188.9625/2378.935, refuting
the unconditional monotonicity claim. -/
theorem c6_rain_monotone_cex :
    c6cexF.rain_7day = 0 ∧
    ({ c6cexF with rain_7day := (150 : ℝ) } : Features).rain_7day = 150 ∧
    fosVal c6cexF minimalClim <
      fosVal { c6cexF with rain_7day := (150 : ℝ) } minimalClim := by
  refine ⟨rfl, rfl, ?_⟩
  set g : Features := { c6cexF with rain_7day := (150 : ℝ) } with hg
  have hz : zVal c6cexF = 2.5 := by norm_num [zVal, c6cexF]
  have hbeta : betaVal c6cexF = π / 4 := by
    unfold betaVal
    rw [show c6cexF.slope = (45 : ℝ) from rfl]
    ring
  have hcos2 : cos (betaVal c6cexF) ^ 2 = 1 / 2 := by
    rw [hbeta, Real.cos_pi_div_four, div_pow,
        Real.sq_sqrt (by norm_num : (0 : ℝ) ≤ 2)]
    norm_num
  have hsqrt2 : Real.sqrt 2 * Real.sqrt 2 = 2 :=
    Real.mul_self_sqrt (by norm_num)
  have hsc : sin (betaVal c6cexF) * cos (betaVal c6cexF) = 1 / 2 := by
    rw [hbeta, Real.sin_pi_div_four, Real.cos_pi_div_four, div_mul_div_comm, hsqrt2]
    norm_num
  have hgamma : gammaVal c6cexF = 1903.14 := by
    unfold gammaVal
    norm_num [c6cexF]
  have hsigma : sigmaVal c6cexF = 2378.925 := by
    unfold sigmaVal
    rw [hgamma, hz, hcos2]
    norm_num
  have htau : tau_driving c6cexF = 2378.925 := by
    unfold tau_driving
    rw [hgamma, hz]
    have hre : (1903.14 : ℝ) * 2.5 * sin (betaVal c6cexF) * cos (betaVal c6cexF)
        = 1903.14 * 2.5 * (sin (betaVal c6cexF) * cos (betaVal c6cexF)) := by ring
    rw [hre, hsc]
    norm_num
  have hphi2 : phiVal c6cexF = 135 := by
    unfold phiVal phi_base fSand fSilt fClay
    norm_num [c6cexF]
  have htan : tanPhi c6cexF = -1 := by
    unfold tanPhi
    rw [hphi2, show (135 : ℝ) * (π / 180) = π - π / 4 by ring,
        Real.tan_pi_sub, Real.tan_pi_div_four]
  have hroot : root_cohesion minimalClim = 0 := by rfl
  have hcVlow : cVal c6cexF minimalClim = 0.5 := by
    unfold cVal c_preroot c_dry c_base c_organic saturationVal fClay fSand fSilt
    rw [hroot]
    norm_num [c6cexF, min_def]
  have hbslow : base_saturation c6cexF = 0 := by
    unfold base_saturation antecedent_moisture
    norm_num [c6cexF, min_def]
  have hiflow : intensity_factor c6cexF = 0 := by
    unfold intensity_factor excess_rain rainfall_intensity infiltration_rateVal fSand fSilt fClay
    norm_num [c6cexF, max_def, min_def]
  have hcrlow : clay_retention c6cexF = 0 := by
    unfold clay_retention fClay
    norm_num [c6cexF]
  have hulow : uVal c6cexF = 0 := by
    unfold uVal uRaw
    rw [hbslow, hiflow, hcrlow, hsigma]
    norm_num [min_def]
  have hselow : sigma_effective c6cexF = 2378.925 := by
    unfold sigma_effective
    rw [hsigma, hulow]
    norm_num [max_def]
  have htrlow : tau_resisting c6cexF minimalClim = -2378.425 := by
    unfold tau_resisting
    rw [hcVlow, hselow, htan]
    norm_num
  have hFoSlow : rawFoS c6cexF minimalClim = -2378.425 / 2378.935 := by
    unfold rawFoS
    rw [htrlow, htau]
    norm_num
  have hcVhigh : cVal g minimalClim = 0.5 := by
    unfold cVal c_preroot c_dry c_base c_organic saturationVal fClay fSand fSilt
    rw [hroot]
    norm_num [hg, c6cexF, min_def]
  have hbshigh : base_saturation g = 0.5 := by
    unfold base_saturation antecedent_moisture
    norm_num [hg, c6cexF, min_def]
  have hifhigh : intensity_factor g = 0 := by
    rw [show intensity_factor g = intensity_factor c6cexF from rfl]
    exact hiflow
  have hcrhigh : clay_retention g = 0 := by
    rw [show clay_retention g = clay_retention c6cexF from rfl]
    exact hcrlow
  have hsigmahigh : sigmaVal g = 2378.925 := by
    rw [show sigmaVal g = sigmaVal c6cexF from rfl]
    exact hsigma
  have huhigh : uVal g = 1189.4625 := by
    unfold uVal uRaw
    rw [hbshigh, hifhigh, hcrhigh, hsigmahigh]
    norm_num [min_def]
  have hsehigh : sigma_effective g = 1189.4625 := by
    unfold sigma_effective
    rw [hsigmahigh, huhigh]
    norm_num [max_def]
  have htanhigh : tanPhi g = -1 := by
    rw [show tanPhi g = tanPhi c6cexF from rfl]
    exact htan
  have htrhigh : tau_resisting g minimalClim = -1188.9625 := by
    unfold tau_resisting
    rw [hcVhigh, hsehigh, htanhigh]
    norm_num
  have htauhigh : tau_driving g = 2378.925 := by
    rw [show tau_driving g = tau_driving c6cexF from rfl]
    exact htau
  have hFoShigh : rawFoS g minimalClim = -1188.9625 / 2378.935 := by
    unfold rawFoS
    rw [htrhigh, htauhigh]
    norm_num
  unfold fosVal
  rw [if_neg (by norm_num [c6cexF]), if_neg (by norm_num [hg, c6cexF]),
      hFoSlow, hFoShigh]
  have hb : (0 : ℝ) < 2378.935 := by norm_num
  rw [div_lt_div_iff_of_pos_right hb]
  norm_num

/-- C7 (code bug): `calculateLandslideRisk` never clamps the derived
friction angle.  At the failing input (all-zero composition, ordinary
bulk density 140) the derived angle is 0.7°, published unclamped in the
verdict, far below the promised [5°,45°] band. -/
theorem c7_friction_angle_unclamped :
    phiVal c7F = 7 / 10 ∧
    detailFriction (calculateLandslideRisk c7F moderateClim) = 7 / 10 ∧
    ¬((5 : ℝ) ≤ 7 / 10) := by
  have hphi : phiVal c7F = 7 / 10 := by
    unfold phiVal phi_base fSand fSilt fClay
    norm_num [c7F]
  refine ⟨hphi, ?_, by norm_num⟩
  have hcl : classifySoilTexture c7F.clay c7F.sand c7F.silt = Except.ok "Unknown" := by
    show classifySoilTexture (0 : ℝ) 0 0 = Except.ok "Unknown"
    norm_num [classifySoilTexture]
  unfold calculateLandslideRisk
  rw [if_neg (by norm_num [c7F]), if_neg (by norm_num [c7F]),
      if_neg (by norm_num [c7F]), if_neg (by norm_num [c7F, moderateClim]),
      if_neg (by norm_num [c7F])]
  simp only [hcl]
  show roundTo 1 (phiVal c7F) = 7 / 10
  rw [hphi, show (7 : ℝ) / 10 = ((7 : ℤ) : ℝ) / 10 ^ 1 by norm_num, roundTo_div_pow]

lemma baseProbability_nonneg (f : Features) (clim : Climate) :
    0 ≤ baseProbability f clim := by
  unfold baseProbability
  split_ifs <;> norm_num

lemma baseProbability_le (f : Features) (clim : Climate) :
    baseProbability f clim ≤ 0.98 := by
  unfold baseProbability
  split_ifs <;> norm_num

lemma probVal_nonneg (f : Features) (clim : Climate) : 0 ≤ probVal f clim := by
  unfold probVal
  have h0 := baseProbability_nonneg f clim
  have hmin1 : (0 : ℝ) ≤ min (baseProbability f clim * 1.4) 0.99 :=
    le_min (by nlinarith) (by norm_num)
  dsimp only
  split_ifs
  all_goals
    first
      | exact h0
      | exact hmin1
      | exact le_min (mul_nonneg hmin1 (by norm_num)) (by norm_num)
      | exact le_min (by nlinarith) (by norm_num)

lemma probVal_le (f : Features) (clim : Climate) : probVal f clim ≤ 0.99 := by
  unfold probVal
  have hb := baseProbability_le f clim
  dsimp only
  split_ifs
  · exact min_le_right _ _
  · exact min_le_right _ _
  · exact min_le_right _ _
  · linarith

/-- C8 (amended): the probability field of every returned verdict lies
in [0,100] — it is a percentage, not a [0,1] fraction — and the
underlying soil-path probability is capped at 0.99 after the rainfall
multipliers. -/
theorem c8_probability_bounds (f : Features) (clim : Climate) (v : Verdict)
    (h : calculateLandslideRisk f clim = Except.ok v) :
    (0 ≤ v.details.probability ∧ v.details.probability ≤ 100) ∧
    probVal f clim ≤ 0.99 := by
  refine ⟨?_, probVal_le f clim⟩
  unfold calculateLandslideRisk at h
  by_cases h1 : f.slope = 0 ∧ f.elevation = 0
  · rw [if_pos h1] at h
    injection h with h2
    subst h2
    norm_num [seaVerdict]
  rw [if_neg h1] at h
  by_cases h2 : f.temp ≤ 0
  · rw [if_pos h2] at h
    injection h with h3
    subst h3
    norm_num [iceVerdict]
  rw [if_neg h2] at h
  by_cases h3 : f.isWater = true ∨ (f.elevation ≤ 2 ∧ f.bulk_density < 15)
  · rw [if_pos h3] at h
    injection h with h4
    subst h4
    norm_num [waterVerdict]
  rw [if_neg h3] at h
  by_cases h4 : clim.permafrost = true ∨ f.temp < -10
  · rw [if_pos h4] at h
    injection h with h5
    subst h5
    unfold permafrostVerdict
    dsimp only
    split_ifs <;> norm_num
  rw [if_neg h4] at h
  by_cases h5 : isSnow f ∧ 20 < f.slope
  · rw [if_pos h5] at h
    injection h with h6
    subst h6
    unfold snowVerdict
    dsimp only
    split_ifs <;> norm_num
  rw [if_neg h5] at h
  cases hcl : classifySoilTexture f.clay f.sand f.silt with
  | error e =>
      rw [hcl] at h
      exact absurd h (by simp)
  | ok tex =>
      rw [hcl] at h
      injection h with h6
      subst h6
      show 0 ≤ roundTo 1 (probVal f clim * 100) ∧ roundTo 1 (probVal f clim * 100) ≤ 100
      constructor
      · exact roundTo_nonneg _ _ (by nlinarith [probVal_nonneg f clim])
      · have h99 : probVal f clim * 100 ≤ 99 := by nlinarith [probVal_le f clim]
        calc roundTo 1 (probVal f clim * 100) ≤ roundTo 1 (99 : ℝ) := roundTo_mono 1 h99
          _ = 99 := by rw [show (99 : ℝ) = ((99 : ℤ) : ℝ) by norm_num, roundTo_intCast]
          _ ≤ 100 := by norm_num

/-- Witness for C8 (amended) at a sea-guard bundle. -/
theorem c8_probability_bounds_witness :
    calculateLandslideRisk c8wF denseClim = Except.ok (seaVerdict c8wF) ∧
    ((0 ≤ (seaVerdict c8wF).details.probability ∧
      (seaVerdict c8wF).details.probability ≤ 100) ∧
     probVal c8wF denseClim ≤ 0.99) := by
  have h : calculateLandslideRisk c8wF denseClim = Except.ok (seaVerdict c8wF) := by
    unfold calculateLandslideRisk
    rw [if_pos (by norm_num [c8wF] : c8wF.slope = 0 ∧ c8wF.elevation = 0)]
  exact ⟨h, c8_probability_bounds c8wF denseClim (seaVerdict c8wF) h⟩

/-- C8 counterexample: a 45°-slope bundle with zero bulk density has
FoS exactly 50, so the 45° band reports base probability 0.20, and the
verdict publishes 20 — far outside [0,1], refuting the claim that the
returned probability is a [0,1] fraction. -/
theorem c8_probability_percent_cex :
    detailProb (calculateLandslideRisk c8cexF minimalClim) = 20 ∧
    ¬(detailProb (calculateLandslideRisk c8cexF minimalClim) ≤ 1) := by
  have hgam : gammaVal c8cexF = 0 := by
    unfold gammaVal
    norm_num [c8cexF]
  have hsig : sigmaVal c8cexF = 0 := by
    unfold sigmaVal
    rw [hgam]
    ring
  have htau : tau_driving c8cexF = 0 := by
    unfold tau_driving
    rw [hgam]
    ring
  have huR : uRaw c8cexF = 0 := by
    unfold uRaw
    rw [hsig]
    ring
  have hu : uVal c8cexF = 0 := by
    unfold uVal
    rw [huR, hsig]
    norm_num [min_def]
  have hsef : sigma_effective c8cexF = 0 := by
    unfold sigma_effective
    rw [hsig, hu]
    norm_num [max_def]
  have hcV : cVal c8cexF minimalClim = 0.5 := by
    unfold cVal c_preroot c_dry c_base c_organic saturationVal fClay fSand fSilt
    rw [show root_cohesion minimalClim = 0 from rfl]
    norm_num [c8cexF, min_def]
  have htr : tau_resisting c8cexF minimalClim = 0.5 := by
    unfold tau_resisting
    rw [hcV, hsef]
    ring
  have hFoS : rawFoS c8cexF minimalClim = 50 := by
    unfold rawFoS
    rw [htr, htau]
    norm_num
  have hbase : baseProbability c8cexF minimalClim = 0.20 := by
    unfold baseProbability
    rw [hFoS]
    norm_num [c8cexF]
  have hprob : probVal c8cexF minimalClim = 0.20 := by
    unfold probVal
    rw [hbase]
    norm_num [rainfall_intensity, c8cexF]
  have hcl : classifySoilTexture c8cexF.clay c8cexF.sand c8cexF.silt
      = Except.ok "Sand" := by
    show classifySoilTexture (0 : ℝ) 100 0 = Except.ok "Sand"
    norm_num [classifySoilTexture]
  have key : detailProb (calculateLandslideRisk c8cexF minimalClim) = 20 := by
    unfold calculateLandslideRisk
    rw [if_neg (by norm_num [c8cexF]), if_neg (by norm_num [c8cexF]),
        if_neg (by norm_num [c8cexF]), if_neg (by norm_num [c8cexF, minimalClim]),
        if_neg (by norm_num [isSnow, c8cexF])]
    simp only [hcl]
    show roundTo 1 (probVal c8cexF minimalClim * 100) = 20
    rw [hprob, show (0.20 : ℝ) * 100 = ((200 : ℤ) : ℝ) / 10 ^ 1 by norm_num,
        roundTo_div_pow]
    norm_num
  exact ⟨key, by rw [key]; norm_num⟩

/-- C9 (code bug): the primary engine adds the +15 dense-vegetation
root-cohesion bonus at the default failure depth 2.5 m, which is deeper
than the 1.5 m root zone, while the second variant in the same source
file gates the same bonus on `z ≤ 1.5` (granting 0 at 2.5 m and 15 at
1 m). -/
theorem c9_root_cohesion_depth_gate :
    zVal c9F = 5 / 2 ∧ ¬(zVal c9F ≤ 3 / 2) ∧
    cVal c9F denseClim = c_preroot c9F + 15 ∧
    v2RootBonus (5 / 2) = 0 ∧ v2RootBonus 1 = 15 := by
  refine ⟨by norm_num [zVal, c9F], by norm_num [zVal, c9F], ?_, ?_, ?_⟩
  · unfold cVal
    rw [show root_cohesion denseClim = 15 from rfl]
  · unfold v2RootBonus
    rw [if_neg]
    rintro ⟨-, hz⟩
    norm_num at hz
  · unfold v2RootBonus
    rw [if_pos ⟨rfl, by norm_num⟩]

/-- C10: negative composition values make `classifySoilTexture` raise
the "Inputs cannot be negative" exception, and when such values reach
the soil-slope path the exception propagates out of
`calculateLandslideRisk`. -/
theorem c10_negative_input_error :
    classifySoilTexture (-1 : ℝ) 50 51 = Except.error "Inputs cannot be negative" ∧
    calculateLandslideRisk c10F moderateClim
      = Except.error "Inputs cannot be negative" := by
  have hcl : classifySoilTexture c10F.clay c10F.sand c10F.silt
      = Except.error "Inputs cannot be negative" := by
    show classifySoilTexture (-1 : ℝ) 50 51 = Except.error "Inputs cannot be negative"
    norm_num [classifySoilTexture]
  refine ⟨hcl, ?_⟩
  unfold calculateLandslideRisk
  rw [if_neg (by norm_num [c10F]), if_neg (by norm_num [c10F]),
      if_neg (by norm_num [c10F]), if_neg (by norm_num [c10F, moderateClim]),
      if_neg (by norm_num [c10F])]
  simp only [hcl]
